import Mathlib

/-!
Verification development for the spaceflight_control_playground repository.

The repository consists of three Python files:
* `main/main_orbit_2d_polar.py` — multiple-shooting transcription of an
  ascent-to-orbit optimal-control problem into a nonlinear program (NLP),
  handed to an external solver;
* `models/liftoff_model/liftoff_model.py` — dynamics of a 2d rocket during
  liftoff;
* `utils/orbit_animator.py` — matplotlib-based trajectory animation.

The embedding below models the machine floats of the source as exact
rationals, symbolic expressions of the CasADi library as Lean functions of
the flat decision vector, and the opaque transcendental functions of the
symbolic library (sin, cos) as function parameters.  The external solver and
the matplotlib animation calls are modelled as abstract `Except`-valued
functions, so that propagation of their errors can be stated.

Two modules imported by `main_orbit_2d_polar.py` are part of the repository
but are not in the sources given here (`integrators/rk4step.py` and
`models/orbit_2d_polar_model/orbit_2d_polar_model.py`); they are modelled
from the specification, as documented on the corresponding definitions.
-/

/-- Numeric vectors of the source (numpy / CasADi column vectors), with the
machine floats modelled as exact rationals. -/
abbrev Vec (n : ℕ) : Type := Fin n → ℚ

/-- Modelled from the spec: `rk4step_ode` from `integrators/rk4step.py`
(imported by `main_orbit_2d_polar.py` but absent from the given sources).
Per the spec the dynamics are discretized with a fixed-step explicit
integrator; the module name designates one step of the classic explicit
fourth-order Runge-Kutta scheme for the ode xdot = f(x, u) with step size
h and the control held constant over the step. -/
def rk4step_ode {n m : ℕ} (f : Vec n → Vec m → Vec n) (x : Vec n) (u : Vec m)
    (h : ℚ) : Vec n :=
  let k1 := f x u
  let k2 := f (x + (h / 2) • k1) u
  let k3 := f (x + (h / 2) • k2) u
  let k4 := f (x + h • k3) u
  x + (h / 6) • (k1 + 2 • k2 + 2 • k3 + k4)

/-- Modelled from the spec: `rk4step_L` from `integrators/rk4step.py`
(absent from the given sources), one fixed-step Runge-Kutta quadrature step
for the cost integral Ldot = l(x, u).  The integrand does not depend on the
running cost L and the caller holds x and u constant over the step, so the
four stage evaluations coincide. -/
def rk4step_L {n m : ℕ} (l : Vec n → Vec m → ℚ) (L : ℚ) (x : Vec n)
    (u : Vec m) (h : ℚ) : ℚ :=
  let k1 := l x u
  let k2 := l x u
  let k3 := l x u
  let k4 := l x u
  L + (h / 6) * (k1 + 2 * k2 + 2 * k3 + k4)

namespace Orbit2dPolar

/-- Modelled from the spec: the class `orbit_2d_polar_model` from
`models/orbit_2d_polar_model/orbit_2d_polar_model.py` (imported by
`main_orbit_2d_polar.py` but absent from the given sources).  Only the
members the main script reads are modelled, each as an abstract parameter:
the scaled dynamics right-hand side (a function of a 5-state, 2-control
pair, matching the 5 state bounds and 2 control bounds the script emits per
interval), the scaled initial state, and the empty and initial masses used
in the state bounds. -/
structure orbit_2d_polar_model where
  dynamics_scaled : Vec 5 → Vec 2 → Vec 5
  x0_scaled : Vec 5
  me : ℚ
  m0 : ℚ

/-- Number of states of the orbit model (5 state bounds per interval in the
script). -/
def nx : ℕ := 5

/-- Number of controls of the orbit model (2 control bounds per interval in
the script). -/
def nu : ℕ := 2

/-- Time horizon (s), line 41. -/
def T : ℚ := 600

/-- Number of shooting intervals, line 42. -/
def N : ℕ := 100

/-- Duration of one shooting interval, line 43. -/
def DT : ℚ := T / (N : ℚ)

/-- Number of integrator steps per shooting interval, line 46. -/
def nn : ℕ := 10

/-- Integrator step size, line 47. -/
def h : ℚ := DT / (nn : ℚ)

/-- Terminal altitude (km), line 50. -/
def altitude_T : ℚ := 20

/-- The dynamics function handed to the integrator, line 61. -/
def f (spacecraft : orbit_2d_polar_model) : Vec 5 → Vec 2 → Vec 5 :=
  spacecraft.dynamics_scaled

/-- The discrete dynamics over one shooting interval, lines 63-67: starting
from Xk = x, apply `rk4step_ode` nn times with step size h. -/
def F (spacecraft : orbit_2d_polar_model) (x : Vec 5) (u : Vec 2) : Vec 5 :=
  (List.range nn).foldl (fun Xk _ => rk4step_ode (f spacecraft) Xk u h) x

/-- The stage cost integrand, line 70. -/
def l (x : Vec 5) (u : Vec 2) : ℚ := u 0 ^ 2 + u 1 ^ 2

/-- The stage cost over one shooting interval, lines 73-77: starting from
Lk = 0, apply `rk4step_L` nn times with step size h. -/
def L (x : Vec 5) (u : Vec 2) : ℚ :=
  (List.range nn).foldl (fun Lk _ => rk4step_L l Lk x u h) 0

/-- Number of intervals with nonzero radial control guess, line 81. -/
def n_r_stop : ℕ := 60

/-- Number of intervals with nonzero angular control guess, line 82. -/
def n_theta_stop : ℕ := 85

/-- The control initial guess, lines 80-90: radial component 0.1075 for the
first 60 intervals, angular component 0.2 for the first 85. -/
def us_init (k : ℕ) : Vec 2 := fun i =>
  if (i : ℕ) = 0 then (if k < n_r_stop then 0.1075 else 0)
  else (if k < n_theta_stop then 0.2 else 0)

/-- The state initial guess by forward simulation, lines 92-97: node 0 is
the scaled initial state, node k+1 is F applied to node k and control
guess k. -/
def xs_init (spacecraft : orbit_2d_polar_model) : ℕ → Vec 5
  | 0 => spacecraft.x0_scaled
  | k + 1 => F spacecraft (xs_init spacecraft k) (us_init k)

/-- The flat decision vector stacks, per interval k, the control U_k (2
entries at 7k, 7k+1) followed by the state X_(k+1) (5 entries at 7k+2 ..
7k+6), mirroring the vertcat order of lines 125 and 141.  `Uvar` reads the
control U_k from a flat decision vector. -/
def Uvar (w : ℕ → ℚ) (k : ℕ) : Vec 2 := fun i => w (7 * k + (i : ℕ))

/-- `Xvar` reads the state decision variable X_(k+1) (created in loop
iteration k, line 140) from a flat decision vector. -/
def Xvar (w : ℕ → ℚ) (k : ℕ) : Vec 5 := fun j => w (7 * k + 2 + (j : ℕ))

/-- The value of the loop variable Xk at the head of iteration j of the
NLP-assembly loop: for j = 0 it is the constant first row of the initial
guess (line 120), not a decision variable; for j+1 it is the decision
variable X_(j+1). -/
def Xnode (spacecraft : orbit_2d_polar_model) (w : ℕ → ℚ) : ℕ → Vec 5
  | 0 => xs_init spacecraft 0
  | j + 1 => Xvar w j

/-- The constraint rows emitted by loop iteration k, evaluated on a flat
decision vector w: the control circle expression (line 131) followed by the
nx continuity rows Xk_end - Xk (line 161), where Xk_end = F(Xk, Uk)
(line 136). -/
def gInterval (spacecraft : orbit_2d_polar_model) (w : ℕ → ℚ) (k : ℕ) :
    List ℚ :=
  (Uvar w k 0 ^ 2 + Uvar w k 1 ^ 2) ::
    List.ofFn (F spacecraft (Xnode spacecraft w k) (Uvar w k)
      - Xnode spacecraft w (k + 1))

/-- The value of Xk_end after the assembly loop: the integrated end state of
the last interval, used by the terminal constraints of lines 166-179. -/
def Xk_end_final (spacecraft : orbit_2d_polar_model) (w : ℕ → ℚ) : Vec 5 :=
  F spacecraft (Xnode spacecraft w (N - 1)) (Uvar w (N - 1))

/-- The full constraint vector g (lines 115-179) evaluated on a flat
decision vector: N blocks of 1 + nx rows, then the three terminal rows
(altitude, radial velocity, angular velocity of Xk_end). -/
def g (spacecraft : orbit_2d_polar_model) (w : ℕ → ℚ) : List ℚ :=
  (List.range N).flatMap (gInterval spacecraft w) ++
    [Xk_end_final spacecraft w 0, Xk_end_final spacecraft w 1,
      Xk_end_final spacecraft w 3]

/-- Lower bounds on g, lines 132, 162, 168, 173, 178.  The terminal angular
velocity angVel_T is computed in the script from the square root of model
constants absent from the given sources; it enters here as the abstract
parameter angVel_T. -/
def lbg (angVel_T : ℚ) : List ℚ :=
  (List.range N).flatMap (fun _ => 0 :: List.replicate nx 0) ++
    [altitude_T, 0, angVel_T]

/-- Upper bounds on g, lines 133, 163, 169, 174, 179. -/
def ubg (angVel_T : ℚ) : List ℚ :=
  (List.range N).flatMap (fun _ => 1 :: List.replicate nx 0) ++
    [altitude_T, 0, angVel_T]

/-- A bound entry of the decision-variable bound vectors: minus infinity, a
finite value, or plus infinity (cas.inf of the source). -/
inductive BoundVal
  | negInf : BoundVal
  | fin : ℚ → BoundVal
  | posInf : BoundVal
deriving DecidableEq

/-- Lower state bounds per interval, lines 142-148: altitude at least 0,
mass at least the empty mass. -/
def lbw_k (spacecraft : orbit_2d_polar_model) : List BoundVal :=
  [.fin 0, .negInf, .negInf, .negInf, .fin spacecraft.me]

/-- Upper state bounds per interval, lines 149-155: mass at most the
initial mass. -/
def ubw_k (spacecraft : orbit_2d_polar_model) : List BoundVal :=
  [.posInf, .posInf, .posInf, .posInf, .fin spacecraft.m0]

/-- Lower bounds on the decision vector, lines 126 and 156: per interval
two unbounded control entries, then the state bounds. -/
def lbw (spacecraft : orbit_2d_polar_model) : List BoundVal :=
  (List.range N).flatMap (fun _ => [.negInf, .negInf] ++ lbw_k spacecraft)

/-- Upper bounds on the decision vector, lines 127 and 157. -/
def ubw (spacecraft : orbit_2d_polar_model) : List BoundVal :=
  (List.range N).flatMap (fun _ => [.posInf, .posInf] ++ ubw_k spacecraft)

/-- The initial guess for the decision vector, lines 128 and 158: per
interval the control guess us_init[k] then the state guess xs_init[k+1]. -/
def w0 (spacecraft : orbit_2d_polar_model) : List ℚ :=
  (List.range N).flatMap (fun k =>
    List.ofFn (us_init k) ++ List.ofFn (xs_init spacecraft (k + 1)))

/-- The initial guess read as a flat decision vector (entry i of w0). -/
def w0fun (spacecraft : orbit_2d_polar_model) : ℕ → ℚ :=
  fun i => (w0 spacecraft).getD i 0

/-- The NLP cost, lines 114 and 137: the sum over the assembly loop of the
interval cost L(Xk, Uk), evaluated on a flat decision vector. -/
def J (spacecraft : orbit_2d_polar_model) (w : ℕ → ℚ) : ℚ :=
  (List.range N).foldl
    (fun acc k => acc + L (Xnode spacecraft w k) (Uvar w k)) 0

/-- The nlp dictionary of lines 194-198: cost entry f and constraint entry
g, both functions of the decision vector x. -/
structure NlpDict where
  f : (ℕ → ℚ) → ℚ
  g : (ℕ → ℚ) → List ℚ

/-- The nlp dictionary assembled by the script. -/
def nlp (spacecraft : orbit_2d_polar_model) : NlpDict :=
  { f := J spacecraft, g := g spacecraft }

/-- The argument dictionary of the solver call, lines 202-208. -/
structure SolverCallArgs where
  x0 : List ℚ
  lbx : List BoundVal
  ubx : List BoundVal
  lbg : List ℚ
  ubg : List ℚ

/-- The arguments the script passes to the solver: exactly the quintuple
(w0, lbw, ubw, lbg, ubg). -/
def solverArgs (spacecraft : orbit_2d_polar_model) (angVel_T : ℚ) :
    SolverCallArgs :=
  { x0 := w0 spacecraft, lbx := lbw spacecraft, ubx := ubw spacecraft,
    lbg := lbg angVel_T, ubg := ubg angVel_T }

/-- The tail of the script, lines 193-208: the external solver (an abstract
function of the nlp dictionary and the call arguments) is invoked with no
surrounding error handler, so its result, error or not, is returned
unchanged. -/
def solveScript {E S : Type} (spacecraft : orbit_2d_polar_model)
    (angVel_T : ℚ)
    (nlpsol : NlpDict → SolverCallArgs → Except E S) : Except E S :=
  nlpsol (nlp spacecraft) (solverArgs spacecraft angVel_T)

end Orbit2dPolar

namespace Liftoff

/-- Gravitational constant (m/s^2), liftoff_model line 21. -/
def g : ℚ := 9.81

/-- Distance from base to centre of mass (m), line 26. -/
def L : ℚ := 20

/-- Distance from base to centre of pressure (m), line 28. -/
def l : ℚ := 10

/-- Maximum thrust (N), line 30. -/
def maxThrust : ℚ := 300 * 10 ^ 3

/-- Total mass (kg), line 34. -/
def m : ℚ := 20 * 10 ^ 3

/-- Inertia tensor (kg*m^2), line 36. -/
def I : ℚ := 1 * 10 ^ 3

/-- Number of states, line 41. -/
def nx : ℕ := 6

/-- Number of disturbances, line 42. -/
def nd : ℕ := 1

/-- Number of controls, line 43. -/
def nu : ℕ := 2

/-- Initial state, lines 45-52: all six components zero. -/
def x0 : Vec 6 := fun _ => 0

/-- The model dynamics of `liftoff_model.dynamics` (lines 70-131).  The
sine and cosine of the symbolic-math library are opaque symbols there and
enter here as function parameters.  The input vector u stacks thrust,
gimbal angle and the wind force disturbance. -/
def dynamics (sin cos : ℚ → ℚ) (x : Vec 6) (u : Vec 3) : Vec 6 :=
  let xVel := x 2
  let yVel := x 3
  let ang := x 4
  let angVel := x 5
  let T := u 0
  let mu := u 1
  let F_W := u 2
  let sa := sin ang
  let ca := cos ang
  let sm := sin mu
  let cm := cos mu
  let F_T : Vec 2 := ![T * maxThrust * (cm * sa - sm * ca),
                       T * maxThrust * (cm * ca + sm * sa)]
  let F_G : Vec 2 := ![0, -(m * g)]
  let Torque := L * F_W * ca + l * F_G 1 * sa
  let xAcc := (F_T 0 + F_W) / m
  let yAcc := (F_T 1 + F_G 1) / m
  let angAcc := Torque / I
  ![xVel, yVel, xAcc, yAcc, angVel, angAcc]

end Liftoff

namespace Animator

/-- Exceptions of the Python runtime relevant to `orbit_animator`:
reading a never-assigned attribute raises AttributeError; a numpy
reduction of an empty array raises ValueError. -/
inductive PyError
  | attributeError (attr : String)
  | valueError (msg : String)
deriving DecidableEq

/-- The plotting-parameter dictionary read by `orbit_animator.__init__`
(keys of lines 34-56). -/
structure AnimParams where
  T : ℚ
  N : ℕ
  isCartesian : Bool
  xPositions : List ℚ
  yPositions : List ℚ
  xVelocities : List ℚ
  yVelocities : List ℚ
  xForces : List ℚ
  yForces : List ℚ
  rhos : List ℚ
  thetas : List ℚ
  rhoDots : List ℚ
  thetaDots : List ℚ
  rhoForces : List ℚ
  thetaForces : List ℚ

/-- The attribute state of a constructed `orbit_animator` object.  The
trajectory attributes are optional: `none` models an attribute the
constructor never assigned. -/
structure orbit_animator where
  T : ℚ
  N : ℕ
  coordsAreCartesian : Bool
  xPositions : Option (List ℚ)
  yPositions : Option (List ℚ)
  xVelocities : Option (List ℚ)
  yVelocities : Option (List ℚ)
  xForces : Option (List ℚ)
  yForces : Option (List ℚ)
  xlim : ℚ × ℚ
  ylim : ℚ × ℚ

/-- Reading an object attribute: raises AttributeError when the attribute
was never assigned. -/
def getAttrList (attr : String) (v : Option (List ℚ)) :
    Except PyError (List ℚ) :=
  match v with
  | none => .error (.attributeError attr)
  | some xs => .ok xs

/-- np.amin: minimum of an array, ValueError on an empty one. -/
def amin (xs : List ℚ) : Except PyError ℚ :=
  match xs with
  | [] => .error (.valueError "zero-size array to reduction operation")
  | a :: rest => .ok (rest.foldl min a)

/-- np.amax: maximum of an array, ValueError on an empty one. -/
def amax (xs : List ℚ) : Except PyError ℚ :=
  match xs with
  | [] => .error (.valueError "zero-size array to reduction operation")
  | a :: rest => .ok (rest.foldl max a)

/-- Axis margin of the figure configuration, line 62. -/
def margin : ℚ := 2

/-- `orbit_animator.__init__` (lines 31-70).  The cartesian branch assigns
the six trajectory attributes from the parameters; the polar branch ends in
TODO comments and assigns none of them.  The figure configuration then
reads self.xPositions and self.yPositions to compute the axis limits, which
raises AttributeError when they were never assigned. -/
def init (params : AnimParams) : Except PyError orbit_animator := do
  let T := params.T
  let N := params.N
  let coordsAreCartesian := params.isCartesian
  let xPositions : Option (List ℚ) :=
    if coordsAreCartesian then some params.xPositions else none
  let yPositions : Option (List ℚ) :=
    if coordsAreCartesian then some params.yPositions else none
  let xVelocities : Option (List ℚ) :=
    if coordsAreCartesian then some params.xVelocities else none
  let yVelocities : Option (List ℚ) :=
    if coordsAreCartesian then some params.yVelocities else none
  let xForces : Option (List ℚ) :=
    if coordsAreCartesian then some params.xForces else none
  let yForces : Option (List ℚ) :=
    if coordsAreCartesian then some params.yForces else none
  let xs ← getAttrList "xPositions" xPositions
  let xlo ← amin xs
  let xhi ← amax xs
  let ys ← getAttrList "yPositions" yPositions
  let ylo ← amin ys
  let yhi ← amax ys
  return { T := T, N := N, coordsAreCartesian := coordsAreCartesian,
           xPositions := xPositions, yPositions := yPositions,
           xVelocities := xVelocities, yVelocities := yVelocities,
           xForces := xForces, yForces := yForces,
           xlim := (xlo - margin, xhi + margin),
           ylim := (ylo - margin, yhi + margin) }

/-- `orbit_animator.run` (lines 97-113), with the matplotlib animation
library abstracted: `funcAnimation` builds the animation object from the
frame list np.arange(1, N) and the frame interval 100/fps, `save` writes it
to a file, `showPlot` displays it.  No call is surrounded by a handler, so
the first error of any library call is returned unchanged. -/
def run {A B C : Type} (self : orbit_animator) (fps : ℚ) (saveFile : Bool)
    (fileName : String)
    (funcAnimation : List ℕ → ℚ → Except PyError A)
    (save : A → String → ℚ → Except PyError B)
    (showPlot : Except PyError C) : Except PyError C := do
  let anim ← funcAnimation (List.range' 1 (self.N - 1)) (100 / fps)
  if saveFile then
    let _ ← save anim fileName fps
  showPlot

end Animator

/-- A concrete instance of the abstract orbit model, used to instantiate
universally quantified statements at a specific input: zero dynamics, zero
initial state, empty mass 0, initial mass 1. -/
def scTest : Orbit2dPolar.orbit_2d_polar_model :=
  { dynamics_scaled := fun _ _ => 0, x0_scaled := fun _ => 0, me := 0, m0 := 1 }

/-- A concrete plotting-parameter dictionary with polar input, used to
instantiate universally quantified statements at a specific input. -/
def pTest : Animator.AnimParams :=
  { T := 0, N := 0, isCartesian := false,
    xPositions := [], yPositions := [], xVelocities := [], yVelocities := [],
    xForces := [], yForces := [],
    rhos := [], thetas := [], rhoDots := [], thetaDots := [],
    rhoForces := [], thetaForces := [] }

/-- A concrete failing solver, used to instantiate universally quantified
statements at a specific input. -/
def nlpsolT : Orbit2dPolar.NlpDict → Orbit2dPolar.SolverCallArgs →
    Except ℕ ℕ := fun _ _ => .error 7

/-- A concrete animator attribute state, used to instantiate universally
quantified statements at a specific input. -/
def selfT : Animator.orbit_animator :=
  { T := 0, N := 3, coordsAreCartesian := true,
    xPositions := none, yPositions := none, xVelocities := none,
    yVelocities := none, xForces := none, yForces := none,
    xlim := (0, 0), ylim := (0, 0) }

/-- A concrete failing animation constructor, used in instantiations. -/
def funcAnimationT : List ℕ → ℚ → Except Animator.PyError ℕ :=
  fun _ _ => .error (.valueError "animation failed")

/-- A concrete succeeding animation constructor, used in instantiations. -/
def funcAnimationOkT : List ℕ → ℚ → Except Animator.PyError ℕ :=
  fun _ _ => .ok 0

/-- A concrete failing save routine, used in instantiations. -/
def saveT : ℕ → String → ℚ → Except Animator.PyError ℕ :=
  fun _ _ _ => .error (.valueError "save failed")

/-- A concrete plot-display action, used in instantiations. -/
def showPlotT : Except Animator.PyError ℕ := .ok 0

/-- A concrete state used to instantiate C8: the zero state. -/
def xT : Vec 6 := fun _ => 0

/-- A concrete input vector used to instantiate C8: thrust 1, gimbal 2,
wind 0. -/
def uT : Vec 3 := ![1, 2, 0]

/-- A concrete input vector used to instantiate C8: thrust 3, gimbal 4,
wind 0. -/
def vT : Vec 3 := ![3, 4, 0]

/-! Generic list lemmas used by the structural theorems below. -/

theorem flatMap_range_len {α : Type} (b : ℕ → List α) (c : ℕ)
    (hb : ∀ k, (b k).length = c) (n : ℕ) :
    ((List.range n).flatMap b).length = c * n := by
  induction n with
  | zero => simp
  | succ m ih => simp [List.range_succ, ih, hb, Nat.mul_succ]

theorem flatMap_range_getD {α : Type} (d : α) (b : ℕ → List α) (c : ℕ)
    (hb : ∀ k, (b k).length = c) (n k i : ℕ) (hk : k < n) (hi : i < c) :
    ((List.range n).flatMap b).getD (c * k + i) d = (b k).getD i d := by
  induction n with
  | zero => omega
  | succ m ih =>
    rw [List.range_succ, List.flatMap_append]
    rcases Nat.lt_or_ge k m with hkm | hkm
    · rw [List.getD_append]
      · exact ih hkm
      · rw [flatMap_range_len b c hb m]
        have hmul : c * k + c ≤ c * m := by
          calc c * k + c = c * (k + 1) := by ring
          _ ≤ c * m := Nat.mul_le_mul_left c hkm
        omega
    · have hkEq : k = m := by omega
      subst hkEq
      rw [List.getD_append_right]
      · rw [flatMap_range_len b c hb k]
        have hsub : c * k + i - c * k = i := by omega
        rw [hsub]
        simp
      · rw [flatMap_range_len b c hb k]; omega

theorem getD_ofFn {n : ℕ} (v : Fin n → ℚ) (i : ℕ) (hi : i < n) :
    (List.ofFn v).getD i 0 = v ⟨i, hi⟩ := by
  rw [List.getD_eq_getElem _ _ (by simpa using hi)]
  simp

theorem foldl_iterate {α : Type} (φ : α → α) (x : α) (n : ℕ) :
    (List.range n).foldl (fun a _ => φ a) x = φ^[n] x := by
  induction n with
  | zero => simp
  | succ m ih =>
    rw [List.range_succ, List.foldl_append, ih, Function.iterate_succ_apply']
    rfl

theorem foldl_add_sum (φ : ℕ → ℚ) (n : ℕ) :
    (List.range n).foldl (fun acc k => acc + φ k) 0
      = ∑ k ∈ Finset.range n, φ k := by
  induction n with
  | zero => simp
  | succ m ih =>
    rw [List.range_succ, List.foldl_append, ih, Finset.sum_range_succ]
    rfl

theorem getD_replicate_zero (n i : ℕ) :
    (List.replicate n (0 : ℚ)).getD i 0 = 0 := by
  induction n generalizing i with
  | zero => simp
  | succ m ih =>
    cases i with
    | zero => rfl
    | succ j => simpa using ih j

namespace Orbit2dPolar

/-! Structural lemmas about the assembled NLP arrays. -/

theorem w0_block_len (spacecraft : orbit_2d_polar_model) :
    ∀ k, (List.ofFn (us_init k) ++
      List.ofFn (xs_init spacecraft (k + 1))).length = 7 := by
  intro k; simp

theorem Uvar_w0 (spacecraft : orbit_2d_polar_model) (k : ℕ) (hk : k < N)
    (i : Fin 2) : Uvar (w0fun spacecraft) k i = us_init k i := by
  show (w0 spacecraft).getD (7 * k + (i : ℕ)) 0 = us_init k i
  rw [w0, flatMap_range_getD 0 _ 7 (w0_block_len spacecraft) N k i hk
    (by have := i.isLt; omega)]
  rw [List.getD_append _ _ 0 _ (by simpa using i.isLt)]
  rw [getD_ofFn (us_init k) i i.isLt]

theorem Xvar_w0 (spacecraft : orbit_2d_polar_model) (k : ℕ) (hk : k < N)
    (j : Fin 5) :
    Xvar (w0fun spacecraft) k j = xs_init spacecraft (k + 1) j := by
  show (w0 spacecraft).getD (7 * k + 2 + (j : ℕ)) 0 = _
  have hidx : 7 * k + 2 + (j : ℕ) = 7 * k + (2 + (j : ℕ)) := by omega
  rw [hidx, w0, flatMap_range_getD 0 _ 7 (w0_block_len spacecraft) N k _ hk
    (by have := j.isLt; omega)]
  rw [List.getD_append_right _ _ 0 _ (by simp)]
  have hsub : 2 + (j : ℕ) - (List.ofFn (us_init k)).length = (j : ℕ) := by
    simp
  rw [hsub, getD_ofFn (xs_init spacecraft (k + 1)) j j.isLt]

theorem Xnode_w0 (spacecraft : orbit_2d_polar_model) (k : ℕ) (hk : k ≤ N) :
    Xnode spacecraft (w0fun spacecraft) k = xs_init spacecraft k := by
  cases k with
  | zero => rfl
  | succ j =>
    funext j5
    exact Xvar_w0 spacecraft j (by omega) j5

theorem gInterval_len (spacecraft : orbit_2d_polar_model) (w : ℕ → ℚ) :
    ∀ k, (gInterval spacecraft w k).length = 6 := by
  intro k; simp [gInterval]

theorem g_flat_len (spacecraft : orbit_2d_polar_model) (w : ℕ → ℚ) :
    ((List.range N).flatMap (gInterval spacecraft w)).length = 600 :=
  flatMap_range_len _ 6 (gInterval_len spacecraft w) N

theorem g_block_getD (spacecraft : orbit_2d_polar_model) (w : ℕ → ℚ)
    (k : ℕ) (hk : k < N) (r : ℕ) (hr : r < 6) :
    (g spacecraft w).getD (6 * k + r) 0
      = (gInterval spacecraft w k).getD r 0 := by
  rw [g, List.getD_append _ _ 0 _
    (by rw [g_flat_len]; have hN : N = 100 := rfl; omega)]
  exact flatMap_range_getD 0 _ 6 (gInterval_len spacecraft w) N k r hk hr

theorem g_terminal_getD (spacecraft : orbit_2d_polar_model) (w : ℕ → ℚ)
    (r : ℕ) (hr : r < 3) :
    (g spacecraft w).getD (600 + r) 0
      = [Xk_end_final spacecraft w 0, Xk_end_final spacecraft w 1,
          Xk_end_final spacecraft w 3].getD r 0 := by
  rw [g, List.getD_append_right _ _ 0 _ (by rw [g_flat_len]; omega)]
  have hsub : 600 + r
      - ((List.range N).flatMap (gInterval spacecraft w)).length = r := by
    rw [g_flat_len]; omega
  rw [hsub]

theorem lbg_flat_len (angVel_T : ℚ) :
    ((List.range N).flatMap
      (fun _ => 0 :: List.replicate nx (0 : ℚ))).length = 600 :=
  flatMap_range_len _ 6 (fun _ => by simp [nx]) N

theorem ubg_flat_len (angVel_T : ℚ) :
    ((List.range N).flatMap
      (fun _ => 1 :: List.replicate nx (0 : ℚ))).length = 600 :=
  flatMap_range_len _ 6 (fun _ => by simp [nx]) N

theorem lbg_block_getD (angVel_T : ℚ) (k : ℕ) (hk : k < N)
    (r : ℕ) (hr : r < 6) :
    (lbg angVel_T).getD (6 * k + r) 0
      = (0 :: List.replicate nx (0 : ℚ)).getD r 0 := by
  rw [lbg, List.getD_append _ _ 0 _
    (by rw [lbg_flat_len angVel_T]; have hN : N = 100 := rfl; omega)]
  exact flatMap_range_getD 0 _ 6 (fun _ => by simp [nx]) N k r hk hr

theorem ubg_block_getD (angVel_T : ℚ) (k : ℕ) (hk : k < N)
    (r : ℕ) (hr : r < 6) :
    (ubg angVel_T).getD (6 * k + r) 0
      = (1 :: List.replicate nx (0 : ℚ)).getD r 0 := by
  rw [ubg, List.getD_append _ _ 0 _
    (by rw [ubg_flat_len angVel_T]; have hN : N = 100 := rfl; omega)]
  exact flatMap_range_getD 0 _ 6 (fun _ => by simp [nx]) N k r hk hr

theorem lbg_terminal_getD (angVel_T : ℚ) (r : ℕ) (hr : r < 3) :
    (lbg angVel_T).getD (600 + r) 0
      = [altitude_T, 0, angVel_T].getD r 0 := by
  rw [lbg, List.getD_append_right _ _ 0 _
    (by rw [lbg_flat_len angVel_T]; omega)]
  have hsub : 600 + r - ((List.range N).flatMap
      (fun _ => 0 :: List.replicate nx (0 : ℚ))).length = r := by
    rw [lbg_flat_len angVel_T]; omega
  rw [hsub]

theorem ubg_terminal_getD (angVel_T : ℚ) (r : ℕ) (hr : r < 3) :
    (ubg angVel_T).getD (600 + r) 0
      = [altitude_T, 0, angVel_T].getD r 0 := by
  rw [ubg, List.getD_append_right _ _ 0 _
    (by rw [ubg_flat_len angVel_T]; omega)]
  have hsub : 600 + r - ((List.range N).flatMap
      (fun _ => 1 :: List.replicate nx (0 : ℚ))).length = r := by
    rw [ubg_flat_len angVel_T]; omega
  rw [hsub]

theorem lbw_block_getD (spacecraft : orbit_2d_polar_model) (k : ℕ)
    (hk : k < N) (r : ℕ) (hr : r < 7) :
    (lbw spacecraft).getD (7 * k + r) (BoundVal.fin 0)
      = ([BoundVal.negInf, BoundVal.negInf]
          ++ lbw_k spacecraft).getD r (BoundVal.fin 0) := by
  rw [lbw]
  exact flatMap_range_getD (BoundVal.fin 0) _ 7
    (fun _ => by simp [lbw_k]) N k r hk hr

theorem ubw_block_getD (spacecraft : orbit_2d_polar_model) (k : ℕ)
    (hk : k < N) (r : ℕ) (hr : r < 7) :
    (ubw spacecraft).getD (7 * k + r) (BoundVal.fin 0)
      = ([BoundVal.posInf, BoundVal.posInf]
          ++ ubw_k spacecraft).getD r (BoundVal.fin 0) := by
  rw [ubw]
  exact flatMap_range_getD (BoundVal.fin 0) _ 7
    (fun _ => by simp [ubw_k]) N k r hk hr

end Orbit2dPolar

namespace Orbit2dPolar

/-- C1: the initial guess is built by forward simulation with the same
discrete map F used in the shooting constraints (xs[k+1] = F(xs[k],
us_init[k]) for every k in 0..N-1), and consequently every shooting
continuity expression Xk_end - Xk evaluates to the zero vector when the
decision vector equals the initial guess w0. -/
theorem C1_initial_guess_forward_simulation_feasible
    (spacecraft : orbit_2d_polar_model) :
    (∀ k : Fin N, xs_init spacecraft ((k : ℕ) + 1)
        = F spacecraft (xs_init spacecraft (k : ℕ)) (us_init (k : ℕ))) ∧
    (∀ k : Fin N,
      F spacecraft (Xnode spacecraft (w0fun spacecraft) (k : ℕ))
          (Uvar (w0fun spacecraft) (k : ℕ))
        - Xnode spacecraft (w0fun spacecraft) ((k : ℕ) + 1) = 0) := by
  constructor
  · intro k
    rfl
  · intro k
    have hXk : Xnode spacecraft (w0fun spacecraft) (k : ℕ)
        = xs_init spacecraft (k : ℕ) :=
      Xnode_w0 spacecraft (k : ℕ) (Nat.le_of_lt k.isLt)
    have hXk1 : Xnode spacecraft (w0fun spacecraft) ((k : ℕ) + 1)
        = xs_init spacecraft ((k : ℕ) + 1) :=
      Xnode_w0 spacecraft ((k : ℕ) + 1) k.isLt
    have hU : Uvar (w0fun spacecraft) (k : ℕ) = us_init (k : ℕ) :=
      funext (Uvar_w0 spacecraft (k : ℕ) k.isLt)
    rw [hXk, hXk1, hU]
    exact sub_eq_zero_of_eq rfl

/-- C2: the transcription is multiple shooting: for every interval k the
constraint vector contains, at rows 6k+1 .. 6k+5, the nx continuity rows
F(X_k, U_k) - X_(k+1), and the corresponding rows of lbg and ubg are both
zero. -/
theorem C2_multiple_shooting_equalities
    (spacecraft : orbit_2d_polar_model) (w : ℕ → ℚ) (angVel_T : ℚ)
    (k : Fin N) (j : Fin 5) :
    (g spacecraft w).getD (6 * (k : ℕ) + 1 + (j : ℕ)) 0
      = F spacecraft (Xnode spacecraft w (k : ℕ)) (Uvar w (k : ℕ)) j
        - Xnode spacecraft w ((k : ℕ) + 1) j ∧
    (lbg angVel_T).getD (6 * (k : ℕ) + 1 + (j : ℕ)) 0 = 0 ∧
    (ubg angVel_T).getD (6 * (k : ℕ) + 1 + (j : ℕ)) 0 = 0 := by
  have hidx : 6 * (k : ℕ) + 1 + (j : ℕ) = 6 * (k : ℕ) + (1 + (j : ℕ)) := by
    omega
  have hi6 : 1 + (j : ℕ) < 6 := by have := j.isLt; omega
  have hN : N = 100 := rfl
  refine ⟨?_, ?_, ?_⟩
  · rw [g, List.getD_append _ _ 0 _
      (by rw [g_flat_len]; have := k.isLt; have := j.isLt; have hN : N = 100 := rfl; omega)]
    rw [hidx, flatMap_range_getD 0 _ 6 (gInterval_len spacecraft w) N
      (k : ℕ) _ k.isLt hi6]
    rw [gInterval]
    rw [show (1 + (j : ℕ)) = (j : ℕ) + 1 by omega]
    rw [List.getD_cons_succ]
    rw [getD_ofFn _ (j : ℕ) j.isLt]
    rfl
  · rw [lbg, List.getD_append _ _ 0 _
      (by rw [flatMap_range_len _ 6 (fun _ => by simp [nx]) N]
          have := k.isLt; have := j.isLt; have hN : N = 100 := rfl; omega)]
    rw [hidx, flatMap_range_getD 0 _ 6 (fun _ => by simp [nx]) N
      (k : ℕ) _ k.isLt hi6]
    rw [show (1 + (j : ℕ)) = (j : ℕ) + 1 by omega]
    rw [List.getD_cons_succ]
    exact getD_replicate_zero nx (j : ℕ)
  · rw [ubg, List.getD_append _ _ 0 _
      (by rw [flatMap_range_len _ 6 (fun _ => by simp [nx]) N]
          have := k.isLt; have := j.isLt; have hN : N = 100 := rfl; omega)]
    rw [hidx, flatMap_range_getD 0 _ 6 (fun _ => by simp [nx]) N
      (k : ℕ) _ k.isLt hi6]
    rw [show (1 + (j : ℕ)) = (j : ℕ) + 1 by omega]
    rw [List.getD_cons_succ]
    exact getD_replicate_zero nx (j : ℕ)

/-- C3: the discrete map F over one shooting interval is the 10-fold
composition of the single explicit step rk4step_ode, applied with the same
constant step size (T/N)/nn in every sub-step and every interval, nn being
10. -/
theorem C3_fixed_step_rk4_iteration
    (spacecraft : orbit_2d_polar_model) (x : Vec 5) (u : Vec 2) :
    F spacecraft x u
      = (fun Xk => rk4step_ode spacecraft.dynamics_scaled Xk u
          ((T / (N : ℚ)) / (nn : ℚ)))^[10] x ∧
    nn = 10 ∧ h = (T / (N : ℚ)) / (nn : ℚ) := by
  refine ⟨?_, rfl, rfl⟩
  rw [F, foldl_iterate]
  rfl

/-- C4: the NLP cost handed to the solver (entry f of the nlp dictionary)
is J = sum over the N shooting intervals of L(Xk, Uk), where L is the
nn-step fixed-step integration of the stage cost l(x,u) = u0^2 + u1^2 over
one interval. -/
theorem C4_cost_is_sum_of_stage_costs
    (spacecraft : orbit_2d_polar_model) (w : ℕ → ℚ) :
    (nlp spacecraft).f w
      = ∑ k ∈ Finset.range N, L (Xnode spacecraft w k) (Uvar w k) ∧
    (∀ x u, L x u = (fun Lk => rk4step_L l Lk x u h)^[nn] 0) ∧
    (∀ x u, l x u = u 0 ^ 2 + u 1 ^ 2) ∧
    (nlp spacecraft).f = J spacecraft := by
  refine ⟨?_, fun x u => ?_, fun x u => rfl, rfl⟩
  · show J spacecraft w = _
    rw [J, foldl_add_sum]
  · rw [L, foldl_iterate]

end Orbit2dPolar

namespace Orbit2dPolar

/-- C5: the decision vector stacks, for each of the N intervals in order,
one control vector (nu = 2 entries) followed by one state vector (nx = 5
entries); w0, lbw and ubw each have N*nx + N*nu = 700 entries; the control
entries are unbounded on both sides; the state entries are bounded below by
(0, -inf, -inf, -inf, me) (altitude at least 0, mass at least me) and above
by (inf, inf, inf, inf, m0) (mass at most m0). -/
theorem C5_decision_vector_stacking (spacecraft : orbit_2d_polar_model) :
    (w0 spacecraft).length = N * nx + N * nu ∧
    (lbw spacecraft).length = N * nx + N * nu ∧
    (ubw spacecraft).length = N * nx + N * nu ∧
    N * nx + N * nu = 700 ∧
    (∀ k : Fin N,
      (∀ i : Fin 2, (w0 spacecraft).getD (7 * (k : ℕ) + (i : ℕ)) 0
          = us_init (k : ℕ) i) ∧
      (∀ j : Fin 5, (w0 spacecraft).getD (7 * (k : ℕ) + 2 + (j : ℕ)) 0
          = xs_init spacecraft ((k : ℕ) + 1) j) ∧
      (∀ w : ℕ → ℚ, ∀ i : Fin 2, Uvar w (k : ℕ) i = w (7 * (k : ℕ) + (i : ℕ))) ∧
      (∀ w : ℕ → ℚ, ∀ j : Fin 5,
          Xvar w (k : ℕ) j = w (7 * (k : ℕ) + 2 + (j : ℕ))) ∧
      ((lbw spacecraft).getD (7 * (k : ℕ)) (BoundVal.fin 0)
          = BoundVal.negInf ∧
       (lbw spacecraft).getD (7 * (k : ℕ) + 1) (BoundVal.fin 0)
          = BoundVal.negInf ∧
       (ubw spacecraft).getD (7 * (k : ℕ)) (BoundVal.fin 0)
          = BoundVal.posInf ∧
       (ubw spacecraft).getD (7 * (k : ℕ) + 1) (BoundVal.fin 0)
          = BoundVal.posInf) ∧
      ((lbw spacecraft).getD (7 * (k : ℕ) + 2) (BoundVal.fin 0)
          = BoundVal.fin 0 ∧
       (lbw spacecraft).getD (7 * (k : ℕ) + 3) (BoundVal.fin 0)
          = BoundVal.negInf ∧
       (lbw spacecraft).getD (7 * (k : ℕ) + 4) (BoundVal.fin 0)
          = BoundVal.negInf ∧
       (lbw spacecraft).getD (7 * (k : ℕ) + 5) (BoundVal.fin 0)
          = BoundVal.negInf ∧
       (lbw spacecraft).getD (7 * (k : ℕ) + 6) (BoundVal.fin 0)
          = BoundVal.fin spacecraft.me) ∧
      ((ubw spacecraft).getD (7 * (k : ℕ) + 2) (BoundVal.fin 0)
          = BoundVal.posInf ∧
       (ubw spacecraft).getD (7 * (k : ℕ) + 3) (BoundVal.fin 0)
          = BoundVal.posInf ∧
       (ubw spacecraft).getD (7 * (k : ℕ) + 4) (BoundVal.fin 0)
          = BoundVal.posInf ∧
       (ubw spacecraft).getD (7 * (k : ℕ) + 5) (BoundVal.fin 0)
          = BoundVal.posInf ∧
       (ubw spacecraft).getD (7 * (k : ℕ) + 6) (BoundVal.fin 0)
          = BoundVal.fin spacecraft.m0)) := by
  refine ⟨?_, ?_, ?_, by decide, fun k => ?_⟩
  · rw [w0, flatMap_range_len _ 7 (w0_block_len spacecraft) N]; decide
  · rw [lbw, flatMap_range_len _ 7 (fun _ => by simp [lbw_k]) N]; decide
  · rw [ubw, flatMap_range_len _ 7 (fun _ => by simp [ubw_k]) N]; decide
  refine ⟨fun i => Uvar_w0 spacecraft (k : ℕ) k.isLt i,
    fun j => Xvar_w0 spacecraft (k : ℕ) k.isLt j,
    fun w i => rfl, fun w j => rfl, ⟨?_, ?_, ?_, ?_⟩,
    ⟨?_, ?_, ?_, ?_, ?_⟩, ⟨?_, ?_, ?_, ?_, ?_⟩⟩
  · exact (lbw_block_getD spacecraft (k : ℕ) k.isLt 0 (by omega)).trans rfl
  · exact (lbw_block_getD spacecraft (k : ℕ) k.isLt 1 (by omega)).trans rfl
  · exact (ubw_block_getD spacecraft (k : ℕ) k.isLt 0 (by omega)).trans rfl
  · exact (ubw_block_getD spacecraft (k : ℕ) k.isLt 1 (by omega)).trans rfl
  · exact (lbw_block_getD spacecraft (k : ℕ) k.isLt 2 (by omega)).trans rfl
  · exact (lbw_block_getD spacecraft (k : ℕ) k.isLt 3 (by omega)).trans rfl
  · exact (lbw_block_getD spacecraft (k : ℕ) k.isLt 4 (by omega)).trans rfl
  · exact (lbw_block_getD spacecraft (k : ℕ) k.isLt 5 (by omega)).trans rfl
  · exact (lbw_block_getD spacecraft (k : ℕ) k.isLt 6 (by omega)).trans rfl
  · exact (ubw_block_getD spacecraft (k : ℕ) k.isLt 2 (by omega)).trans rfl
  · exact (ubw_block_getD spacecraft (k : ℕ) k.isLt 3 (by omega)).trans rfl
  · exact (ubw_block_getD spacecraft (k : ℕ) k.isLt 4 (by omega)).trans rfl
  · exact (ubw_block_getD spacecraft (k : ℕ) k.isLt 5 (by omega)).trans rfl
  · exact (ubw_block_getD spacecraft (k : ℕ) k.isLt 6 (by omega)).trans rfl

/-- C6: g, lbg and ubg each have N*(1 + nx) + 3 = 603 entries; per interval
the circle constraint on the controls is bounded in [0, 1] and the nx
continuity rows in [0, 0]; the three terminal rows fix the final altitude
to altitude_T, the final radial velocity to 0 and the final angular
velocity to angVel_T; and the solver is invoked with exactly the quintuple
(w0, lbw, ubw, lbg, ubg). -/
theorem C6_constraint_vector_and_solver_call
    (spacecraft : orbit_2d_polar_model) (angVel_T : ℚ) (w : ℕ → ℚ) :
    (g spacecraft w).length = N * (1 + nx) + 3 ∧
    (lbg angVel_T).length = N * (1 + nx) + 3 ∧
    (ubg angVel_T).length = N * (1 + nx) + 3 ∧
    N * (1 + nx) + 3 = 603 ∧
    (∀ k : Fin N,
      (g spacecraft w).getD (6 * (k : ℕ)) 0
        = Uvar w (k : ℕ) 0 ^ 2 + Uvar w (k : ℕ) 1 ^ 2 ∧
      (lbg angVel_T).getD (6 * (k : ℕ)) 0 = 0 ∧
      (ubg angVel_T).getD (6 * (k : ℕ)) 0 = 1 ∧
      (∀ j : Fin 5,
        (lbg angVel_T).getD (6 * (k : ℕ) + 1 + (j : ℕ)) 0 = 0 ∧
        (ubg angVel_T).getD (6 * (k : ℕ) + 1 + (j : ℕ)) 0 = 0)) ∧
    (g spacecraft w).getD 600 0 = Xk_end_final spacecraft w 0 ∧
    (lbg angVel_T).getD 600 0 = altitude_T ∧
    (ubg angVel_T).getD 600 0 = altitude_T ∧
    (g spacecraft w).getD 601 0 = Xk_end_final spacecraft w 1 ∧
    (lbg angVel_T).getD 601 0 = 0 ∧
    (ubg angVel_T).getD 601 0 = 0 ∧
    (g spacecraft w).getD 602 0 = Xk_end_final spacecraft w 3 ∧
    (lbg angVel_T).getD 602 0 = angVel_T ∧
    (ubg angVel_T).getD 602 0 = angVel_T ∧
    solverArgs spacecraft angVel_T
      = ⟨w0 spacecraft, lbw spacecraft, ubw spacecraft,
          lbg angVel_T, ubg angVel_T⟩ := by
  refine ⟨?_, ?_, ?_, by decide, fun k => ⟨?_, ?_, ?_, fun j => ⟨?_, ?_⟩⟩,
    ?_, ?_, ?_, ?_, ?_, ?_, ?_, ?_, ?_, rfl⟩
  · rw [g, List.length_append, g_flat_len]; rfl
  · rw [lbg, List.length_append, lbg_flat_len angVel_T]; rfl
  · rw [ubg, List.length_append, ubg_flat_len angVel_T]; rfl
  · exact (g_block_getD spacecraft w (k : ℕ) k.isLt 0 (by omega)).trans rfl
  · exact (lbg_block_getD angVel_T (k : ℕ) k.isLt 0 (by omega)).trans rfl
  · exact (ubg_block_getD angVel_T (k : ℕ) k.isLt 0 (by omega)).trans rfl
  · have hidx : 6 * (k : ℕ) + 1 + (j : ℕ) = 6 * (k : ℕ) + (1 + (j : ℕ)) := by
      omega
    rw [hidx, lbg_block_getD angVel_T (k : ℕ) k.isLt _
      (by have := j.isLt; omega)]
    rw [show (1 + (j : ℕ)) = (j : ℕ) + 1 by omega, List.getD_cons_succ]
    exact getD_replicate_zero nx (j : ℕ)
  · have hidx : 6 * (k : ℕ) + 1 + (j : ℕ) = 6 * (k : ℕ) + (1 + (j : ℕ)) := by
      omega
    rw [hidx, ubg_block_getD angVel_T (k : ℕ) k.isLt _
      (by have := j.isLt; omega)]
    rw [show (1 + (j : ℕ)) = (j : ℕ) + 1 by omega, List.getD_cons_succ]
    exact getD_replicate_zero nx (j : ℕ)
  · exact (g_terminal_getD spacecraft w 0 (by omega)).trans rfl
  · exact (lbg_terminal_getD angVel_T 0 (by omega)).trans rfl
  · exact (ubg_terminal_getD angVel_T 0 (by omega)).trans rfl
  · exact (g_terminal_getD spacecraft w 1 (by omega)).trans rfl
  · exact (lbg_terminal_getD angVel_T 1 (by omega)).trans rfl
  · exact (ubg_terminal_getD angVel_T 1 (by omega)).trans rfl
  · exact (g_terminal_getD spacecraft w 2 (by omega)).trans rfl
  · exact (lbg_terminal_getD angVel_T 2 (by omega)).trans rfl
  · exact (ubg_terminal_getD angVel_T 2 (by omega)).trans rfl

/-- C7: the state at shooting node 0 is not a decision variable: the
constraint expressions read the constant scaled initial state there,
independently of the decision vector, and the state bound entries of lbw
and ubw belong to the decision variables of nodes 1 through N only (the
bound vectors cover exactly the 7N decision entries, and the entries
bounding altitude and mass at offsets 7k+2 and 7k+6 are the ones the
constraints read as node k+1). -/
theorem C7_initial_state_fixed (spacecraft : orbit_2d_polar_model) :
    (∀ w w' : ℕ → ℚ, Xnode spacecraft w 0 = Xnode spacecraft w' 0) ∧
    (∀ w : ℕ → ℚ, Xnode spacecraft w 0 = spacecraft.x0_scaled) ∧
    (∀ w : ℕ → ℚ, ∀ k : Fin N, ∀ j : Fin 5,
      Xnode spacecraft w ((k : ℕ) + 1) j = w (7 * (k : ℕ) + 2 + (j : ℕ))) ∧
    (∀ k : Fin N,
      (lbw spacecraft).getD (7 * (k : ℕ) + 2) (BoundVal.fin 0)
        = BoundVal.fin 0 ∧
      (lbw spacecraft).getD (7 * (k : ℕ) + 6) (BoundVal.fin 0)
        = BoundVal.fin spacecraft.me ∧
      (ubw spacecraft).getD (7 * (k : ℕ) + 6) (BoundVal.fin 0)
        = BoundVal.fin spacecraft.m0) ∧
    (lbw spacecraft).length = 7 * N ∧ (ubw spacecraft).length = 7 * N := by
  refine ⟨fun w w' => rfl, fun w => rfl, fun w k j => rfl, fun k => ⟨?_, ?_, ?_⟩,
    flatMap_range_len _ 7 (fun _ => by simp [lbw_k]) N,
    flatMap_range_len _ 7 (fun _ => by simp [ubw_k]) N⟩
  · exact (lbw_block_getD spacecraft (k : ℕ) k.isLt 2 (by omega)).trans rfl
  · exact (lbw_block_getD spacecraft (k : ℕ) k.isLt 6 (by omega)).trans rfl
  · exact (ubw_block_getD spacecraft (k : ℕ) k.isLt 6 (by omega)).trans rfl

end Orbit2dPolar

/-! Reduction lemmas for the Except monad, used by the error-propagation
theorems. -/

theorem except_bind_ok {E A B : Type} (a : A) (f : A → Except E B) :
    (Except.ok a : Except E A) >>= f = f a := rfl

theorem except_bind_error {E A B : Type} (e : E) (f : A → Except E B) :
    (Except.error e : Except E A) >>= f = Except.error e := rfl

theorem except_map_error {E A B : Type} (e : E) (f : A → B) :
    (f <$> (Except.error e : Except E A)) = Except.error e := rfl

namespace Liftoff

theorem dynamics_val5 (sin cos : ℚ → ℚ) (x : Vec 6) (v : Vec 3) :
    dynamics sin cos x v 5
      = (L * v 2 * cos (x 4) + l * (-(m * g)) * sin (x 4)) / I := rfl

end Liftoff

/-- C8: in liftoff_model.dynamics the angular-acceleration component (index
5 of the returned state derivative) does not depend on the thrust control
u[0] or the gimbal-angle control u[1]: for every state x and any two input
vectors agreeing on the wind force u[2] the returned angular acceleration
is identical, equal to (L*F_W*cos(ang) - l*m*g*sin(ang))/I. -/
theorem C8_angular_acceleration_ignores_controls (sin cos : ℚ → ℚ)
    (x : Vec 6) (u u' : Vec 3) (hw : u 2 = u' 2) :
    Liftoff.dynamics sin cos x u 5 = Liftoff.dynamics sin cos x u' 5 ∧
    Liftoff.dynamics sin cos x u 5
      = (Liftoff.L * u 2 * cos (x 4)
          - Liftoff.l * Liftoff.m * Liftoff.g * sin (x 4)) / Liftoff.I := by
  constructor
  · rw [Liftoff.dynamics_val5, Liftoff.dynamics_val5, hw]
  · rw [Liftoff.dynamics_val5]; ring

/-- Witness for C8 at concrete inputs: the hypothesis (agreement on the
wind force) holds for uT and vT, and the conclusion follows by applying the
theorem. -/
theorem C8_witness :
    uT 2 = vT 2 ∧
    (Liftoff.dynamics id id xT uT 5 = Liftoff.dynamics id id xT vT 5 ∧
     Liftoff.dynamics id id xT uT 5
       = (Liftoff.L * uT 2 * id (xT 4)
           - Liftoff.l * Liftoff.m * Liftoff.g * id (xT 4)) / Liftoff.I) :=
  ⟨rfl, C8_angular_acceleration_ignores_controls id id xT uT vT rfl⟩

/-- C9: constructing orbit_animator with isCartesian false always fails:
the polar branch never assigns the position/velocity/force attributes, so
the axis-limit computation reading self.xPositions raises AttributeError. -/
theorem C9_polar_input_always_fails (params : Animator.AnimParams)
    (hpolar : params.isCartesian = false) :
    Animator.init params
      = .error (.attributeError "xPositions") := by
  simp [Animator.init, hpolar, Animator.getAttrList, except_bind_error,
    except_map_error]

/-- Witness for C9 at a concrete input: the polar parameter dictionary
pTest satisfies the hypothesis and the construction fails with
AttributeError on xPositions. -/
theorem C9_witness :
    pTest.isCartesian = false ∧
    Animator.init pTest
      = .error (.attributeError "xPositions") :=
  ⟨rfl, C9_polar_input_always_fails pTest rfl⟩

/-- C10: no code in the repository catches or transforms exceptions: the
solver call of main_orbit_2d_polar.py and the animation routines of
orbit_animator.run are executed without surrounding error handling, so an
error raised by the external solver, by the animation constructor, or by
the save routine is returned unchanged to the top level. -/
theorem C10_exceptions_propagate_unhandled
    {E S A B C A' B' C' : Type}
    (spacecraft : Orbit2dPolar.orbit_2d_polar_model) (angVel_T : ℚ)
    (nlpsol : Orbit2dPolar.NlpDict → Orbit2dPolar.SolverCallArgs →
      Except E S) (e : E)
    (self : Animator.orbit_animator) (fps : ℚ) (saveFile : Bool)
    (fileName : String)
    (funcAnimation : List ℕ → ℚ → Except Animator.PyError A)
    (save : A → String → ℚ → Except Animator.PyError B)
    (showPlot : Except Animator.PyError C) (pe : Animator.PyError)
    (self' : Animator.orbit_animator) (fps' : ℚ) (fileName' : String)
    (funcAnimation' : List ℕ → ℚ → Except Animator.PyError A')
    (save' : A' → String → ℚ → Except Animator.PyError B')
    (showPlot' : Except Animator.PyError C') (pe' : Animator.PyError)
    (anim : A')
    (h1 : nlpsol (Orbit2dPolar.nlp spacecraft)
      (Orbit2dPolar.solverArgs spacecraft angVel_T) = .error e)
    (h2 : funcAnimation (List.range' 1 (self.N - 1)) (100 / fps)
      = .error pe)
    (h3 : funcAnimation' (List.range' 1 (self'.N - 1)) (100 / fps')
      = .ok anim)
    (h4 : save' anim fileName' fps' = .error pe') :
    Orbit2dPolar.solveScript spacecraft angVel_T nlpsol = .error e ∧
    Animator.run self fps saveFile fileName funcAnimation save showPlot
      = .error pe ∧
    Animator.run self' fps' true fileName' funcAnimation' save' showPlot'
      = .error pe' := by
  refine ⟨h1, ?_, ?_⟩
  · simp [Animator.run, h2, except_bind_error]
  · simp [Animator.run, h3, h4, except_bind_ok, except_bind_error]

/-- Witness for C10 at concrete inputs: a failing solver, a failing
animation constructor, and a succeeding animation constructor followed by
a failing save, with the propagated errors as the theorem states. -/
theorem C10_witness :
    nlpsolT (Orbit2dPolar.nlp scTest) (Orbit2dPolar.solverArgs scTest 0)
      = .error 7 ∧
    funcAnimationT (List.range' 1 (selfT.N - 1)) (100 / 1)
      = .error (.valueError "animation failed") ∧
    funcAnimationOkT (List.range' 1 (selfT.N - 1)) (100 / 1) = .ok 0 ∧
    saveT 0 "anim.mp4" 1 = .error (.valueError "save failed") ∧
    (Orbit2dPolar.solveScript scTest 0 nlpsolT = .error 7 ∧
     Animator.run selfT 1 false "anim.mp4" funcAnimationT saveT showPlotT
       = .error (.valueError "animation failed") ∧
     Animator.run selfT 1 true "anim.mp4" funcAnimationOkT saveT showPlotT
       = .error (.valueError "save failed")) :=
  ⟨rfl, rfl, rfl, rfl,
    C10_exceptions_propagate_unhandled scTest 0 nlpsolT 7 selfT 1 false
      "anim.mp4" funcAnimationT saveT showPlotT
      (.valueError "animation failed") selfT 1 "anim.mp4" funcAnimationOkT
      saveT showPlotT (.valueError "save failed") 0 rfl rfl rfl rfl⟩
